import Mathlib

set_option maxHeartbeats 1000000

/-!
Shallow embedding of `openmdao/utils/options_dictionary.py` (class
`OptionsDictionary`): a pre-declared, validated key-value store.  Python
values are modelled by `PyVal`, Python exceptions by `PyErr`, and the
mutable dictionary-of-dictionaries by an insertion-ordered association
list of `Meta` records.  Operations that mutate state return the new
state together with the list of deprecation-warning messages they emitted
and an `Except` result, because a Python exception does not roll back
mutations already performed.
-/

namespace OptionsDict

/-- Dynamic Python values that flow through the options dictionary.
`undef` models the `_UNDEFINED` sentinel object used for "no default". -/
inductive PyVal where
  | noneV : PyVal
  | boolV : Bool → PyVal
  | intV : Int → PyVal
  | strV : String → PyVal
  | undef : PyVal
deriving DecidableEq, Repr

/-- Python exception kinds raised by the options dictionary, with message. -/
inductive PyErr where
  | keyError : String → PyErr
  | typeError : String → PyErr
  | valueError : String → PyErr
  | runtimeError : String → PyErr
deriving DecidableEq, Repr

/-- Python types usable as `types=` constraints in `declare`. -/
inductive PyType where
  | boolT : PyType
  | intT : PyType
  | strT : PyType
  | noneT : PyType
deriving DecidableEq, Repr

/-- The `types` argument of `declare` is either a single type object or a
tuple of types; `types is bool` in the source is an identity test that
only a single type can pass. -/
inductive TypesArg where
  | single : PyType → TypesArg
  | tuple : List PyType → TypesArg
deriving DecidableEq, Repr

/-- Numeric view of a value: Python treats `bool` as a numeric subtype of
`int` (`True == 1`, `False == 0`). -/
def toNum? : PyVal → Option Int
  | .boolV b => some (if b then 1 else 0)
  | .intV n => some n
  | _ => none

/-- Python `==` on the modelled values: numbers compare across `bool` and
`int` (so `1 == True`), everything else compares structurally and
cross-kind comparisons are `False`. -/
def pyEq (a b : PyVal) : Bool :=
  match a, b with
  | .noneV, .noneV => true
  | .strV s, .strV t => s = t
  | .undef, .undef => true
  | _, _ =>
    match toNum? a, toNum? b with
    | some x, some y => x = y
    | _, _ => false

/-- Python membership `v in vs` (element-wise `==`; never raises). -/
def pyIn (v : PyVal) (vs : List PyVal) : Bool :=
  vs.any (fun w => pyEq v w)

/-- Python `a > b`; `none` models the `TypeError` raised when the two
values are unorderable (e.g. a string against a number, or `None`). -/
def pyGt? (a b : PyVal) : Option Bool :=
  match a, b with
  | .strV s, .strV t => some (t < s)
  | _, _ =>
    match toNum? a, toNum? b with
    | some x, some y => some (y < x)
    | _, _ => none

/-- Python `a < b`. -/
def pyLt? (a b : PyVal) : Option Bool :=
  pyGt? b a

/-- Python `isinstance(v, t)` for a single type; `bool` instances are also
`int` instances. -/
def isinstOne : PyVal → PyType → Bool
  | .boolV _, .boolT => true
  | .boolV _, .intT => true
  | .intV _, .intT => true
  | .strV _, .strT => true
  | .noneV, .noneT => true
  | _, _ => false

/-- Python `isinstance(v, types)` against a single type or a tuple. -/
def TypesArg.check (t : TypesArg) (v : PyVal) : Bool :=
  match t with
  | .single ty => isinstOne v ty
  | .tuple ts => ts.any (isinstOne v)

/-- Rendering of a value inside an error message (`str`-like). -/
def strPy : PyVal → String
  | .noneV => "None"
  | .boolV true => "True"
  | .boolV false => "False"
  | .intV n => toString n
  | .strV s => s
  | .undef => "UNDEFINED"

/-- A user-supplied `check_valid` function: called with the option name and
the value, it returns `some e` to raise `e` and `none` to accept. -/
def CheckValid : Type :=
  String → PyVal → Option PyErr

/-- One slot of the dictionary: the per-option metadata record stored in
`self._dict[name]` by `declare`. -/
structure Meta where
  val : PyVal
  values : Option (List PyVal)
  types : Option TypesArg
  desc : String
  upper : Option PyVal
  lower : Option PyVal
  check_valid : Option CheckValid
  has_been_set : Bool
  allow_none : Bool
  recordable : Bool
  deprecation : Option String
  need_deprecation : Bool

/-- The options dictionary state: `dict` is insertion-ordered like a
Python `dict`. -/
structure OptionsDictionary where
  dict : List (String × Meta)
  parent_name : Option String
  read_only : Bool
  all_recordable : Bool

/-- Lookup in the insertion-ordered association list (`self._dict[name]`). -/
def alookup : List (String × Meta) → String → Option Meta
  | [], _ => none
  | (k, m) :: rest, n => if k = n then some m else alookup rest n

/-- Assignment `self._dict[name] = meta`: replaces in place when the key
exists (keeping its position, as a Python dict does), appends otherwise. -/
def aset : List (String × Meta) → String → Meta → List (String × Meta)
  | [], n, m => [(n, m)]
  | (k, m0) :: rest, n, m => if k = n then (n, m) :: rest else (k, m0) :: aset rest n m

/-- `OptionsDictionary.__init__`. -/
def OptionsDictionary.init (parent_name : Option String) (read_only : Bool) :
    OptionsDictionary :=
  { dict := [], parent_name := parent_name, read_only := read_only,
    all_recordable := true }

/-- `OptionsDictionary._raise`: prepend the parent name to the message
(the exception kind itself is chosen at each raise site). -/
def OptionsDictionary.raiseMsg (d : OptionsDictionary) (msg : String) : String :=
  match d.parent_name with
  | none => msg
  | some p => p ++ ": " ++ msg

/-- `OptionsDictionary._assert_valid`: the validation rule engine.  The
enumerated-values / type / bounds checks are guarded by
`not (value is None and allow_none)`; the `check_valid` call is outside
that guard, exactly as in the source.  Returns `some e` when the Python
code would raise `e`. -/
def OptionsDictionary._assert_valid (d : OptionsDictionary) (name : String)
    (value : PyVal) : Option PyErr :=
  match alookup d.dict name with
  | none => some (.keyError name)
  | some meta =>
    let guarded : Option PyErr :=
      if value = .noneV ∧ meta.allow_none then none
      else
        let vtErr : Option PyErr :=
          match meta.values with
          | some vs =>
            if pyIn value vs then none
            else some (.valueError (d.raiseMsg ("Value (" ++ strPy value ++
              ") of option " ++ name ++ " is not one of the allowed values.")))
          | none =>
            match meta.types with
            | some ts =>
              if ts.check value then none
              else some (.typeError (d.raiseMsg ("Value (" ++ strPy value ++
                ") of option " ++ name ++ " does not have an expected type.")))
            | none => none
        match vtErr with
        | some e => some e
        | none =>
          match meta.upper with
          | some u =>
            match pyGt? value u with
            | some true => some (.valueError (d.raiseMsg ("Value (" ++
                strPy value ++ ") of option " ++ name ++
                " exceeds maximum allowed value of " ++ strPy u ++ ".")))
            | some false =>
              match meta.lower with
              | some l =>
                match pyLt? value l with
                | some true => some (.valueError (d.raiseMsg ("Value (" ++
                    strPy value ++ ") of option " ++ name ++
                    " is less than minimum allowed value of " ++ strPy l ++ ".")))
                | some false => none
                | none => some (.typeError (d.raiseMsg "unorderable types"))
              | none => none
            | none => some (.typeError (d.raiseMsg "unorderable types"))
          | none =>
            match meta.lower with
            | some l =>
              match pyLt? value l with
              | some true => some (.valueError (d.raiseMsg ("Value (" ++
                  strPy value ++ ") of option " ++ name ++
                  " is less than minimum allowed value of " ++ strPy l ++ ".")))
              | some false => none
              | none => some (.typeError (d.raiseMsg "unorderable types"))
            | none => none
    match guarded with
    | some e => some e
    | none =>
      match meta.check_valid with
      | some f => f name value
      | none => none

/-- `OptionsDictionary.declare` (the argument-shape `TypeError`s on
`values`/`types` cannot fire in this typed embedding and are omitted).
Order follows the source: the both-specified error is raised before the
slot is inserted; `types is bool` rewrites `values` to `(True, False)`;
`recordable=False` permanently clears `all_recordable`; a `None` default
forces `allow_none`; the slot is inserted; only then is a provided
default validated, so a validation error leaves the slot inserted. -/
def OptionsDictionary.declare (d : OptionsDictionary) (name : String)
    (default : PyVal) (values : Option (List PyVal)) (types : Option TypesArg)
    (desc : String) (upper : Option PyVal) (lower : Option PyVal)
    (check_valid : Option CheckValid) (allow_none : Bool) (recordable : Bool)
    (deprecation : Option String) : OptionsDictionary × Option PyErr :=
  if types.isSome && values.isSome then
    (d, some (.runtimeError (d.raiseMsg ("types and values were both specified for option "
      ++ name ++ "."))))
  else
    let values := if types = some (.single .boolT) then
        some [PyVal.boolV true, PyVal.boolV false]
      else values
    let d := if recordable then d else { d with all_recordable := false }
    let default_provided : Bool := default != PyVal.undef
    let allow_none := if default_provided && (default == PyVal.noneV) then true
      else allow_none
    let meta : Meta :=
      { val := default, values := values, types := types, desc := desc,
        upper := upper, lower := lower, check_valid := check_valid,
        has_been_set := default_provided, allow_none := allow_none,
        recordable := recordable, deprecation := deprecation,
        need_deprecation := deprecation.isSome }
    let d := { d with dict := aset d.dict name meta }
    if default_provided then (d, d._assert_valid name default)
    else (d, none)

/-- The one-shot deprecation block shared verbatim by `__setitem__` and
`__getitem__`: when `need_deprecation` is set, call the external
`warn_deprecation` notifier with the stored message and clear the flag.
Returns the (possibly) updated state, the warnings emitted, and the
(possibly) updated slot metadata. -/
def OptionsDictionary.warnStep (d : OptionsDictionary) (name : String)
    (meta : Meta) : OptionsDictionary × List String × Meta :=
  if meta.need_deprecation then
    let meta2 := { meta with need_deprecation := false }
    ({ d with dict := aset d.dict name meta2 }, [meta2.deprecation.getD ""], meta2)
  else (d, [], meta)

/-- `OptionsDictionary.__setitem__`.  Returns the new state, the
deprecation-warning messages emitted, and the outcome.  Order follows the
source: not-declared error, then the one-shot deprecation warning, then
the read-only error, then validation, then the assignment. -/
def OptionsDictionary.setitem (d : OptionsDictionary) (name : String)
    (value : PyVal) : OptionsDictionary × List String × Except PyErr Unit :=
  match alookup d.dict name with
  | none =>
    (d, [], .error (.keyError (d.raiseMsg ("Option " ++ name ++
      " cannot be set because it has not been declared."))))
  | some meta =>
    let step := d.warnStep name meta
    let d := step.1
    let warns := step.2.1
    let meta := step.2.2
    if d.read_only then
      (d, warns, .error (.keyError (d.raiseMsg ("Tried to set read-only option "
        ++ name ++ "."))))
    else
      match d._assert_valid name value with
      | some e => (d, warns, .error e)
      | none =>
        let newMeta := { meta with val := value, has_been_set := true }
        ({ d with dict := aset d.dict name newMeta }, warns, .ok ())

/-- `OptionsDictionary.__getitem__`.  Order follows the source: not-found
error, then the one-shot deprecation warning, then either the stored value
(if `has_been_set`) or the required-but-not-set `RuntimeError`. -/
def OptionsDictionary.getitem (d : OptionsDictionary) (name : String) :
    OptionsDictionary × List String × Except PyErr PyVal :=
  match alookup d.dict name with
  | none =>
    (d, [], .error (.keyError (d.raiseMsg ("Option " ++ name ++
      " cannot be found"))))
  | some meta =>
    let step := d.warnStep name meta
    let d := step.1
    let warns := step.2.1
    let meta := step.2.2
    if meta.has_been_set then (d, warns, .ok meta.val)
    else (d, warns, .error (.runtimeError (d.raiseMsg ("Option " ++ name ++
      " is required but has not been set."))))

/-- `OptionsDictionary.get`: returns the stored `val` field whenever the
name is present (even when it is the `undef` sentinel), and the supplied
default only when the name is absent; it never raises and never touches
the deprecation flag. -/
def OptionsDictionary.get (d : OptionsDictionary) (name : String)
    (default : PyVal) : PyVal :=
  match alookup d.dict name with
  | some meta => meta.val
  | none => default

/-- `OptionsDictionary.update`: `self[name] = in_dict[name]` for each entry
in iteration order; the first raised error propagates and stops the loop,
keeping the state mutations already performed. -/
def OptionsDictionary.update :
    OptionsDictionary → List (String × PyVal) →
      OptionsDictionary × List String × Except PyErr Unit
  | d, [] => (d, [], .ok ())
  | d, (name, value) :: rest =>
    match (d.setitem name value).2.2 with
    | .error e => ((d.setitem name value).1, (d.setitem name value).2.1, .error e)
    | .ok _ =>
      (((d.setitem name value).1.update rest).1,
       (d.setitem name value).2.1 ++ ((d.setitem name value).1.update rest).2.1,
       ((d.setitem name value).1.update rest).2.2)

/-- One access to a slot: a read (`__getitem__`) or a write
(`__setitem__` with the given value). -/
inductive Access where
  | read : Access
  | write : PyVal → Access

/-- Run one access against the slot `name`, keeping the new state and the
deprecation warnings it emitted (the access result itself is dropped). -/
def OptionsDictionary.runAccess (d : OptionsDictionary) (name : String) :
    Access → OptionsDictionary × List String
  | .read => ((d.getitem name).1, (d.getitem name).2.1)
  | .write v => ((d.setitem name v).1, (d.setitem name v).2.1)

/-- Run a sequence of accesses against the slot `name`, counting the total
number of deprecation warnings emitted. -/
def OptionsDictionary.runAccesses (d : OptionsDictionary) (name : String) :
    List Access → OptionsDictionary × Nat
  | [] => (d, 0)
  | a :: rest =>
    (((d.runAccess name a).1.runAccesses name rest).1,
     (d.runAccess name a).2.length + ((d.runAccess name a).1.runAccesses name rest).2)

/-- Iterate `k` reads of `name`, keeping only the state. -/
def OptionsDictionary.readIter :
    OptionsDictionary → String → Nat → OptionsDictionary
  | d, _, 0 => d
  | d, name, k + 1 => OptionsDictionary.readIter (d.getitem name).1 name k

/-- The values/types portion of the rule engine in isolation: does the
value pass the configured enumerated-values check (or, failing that
configuration, the configured type check)? -/
def vtOk (meta : Meta) (v : PyVal) : Bool :=
  match meta.values with
  | some vs => pyIn v vs
  | none =>
    match meta.types with
    | some ts => ts.check v
    | none => true

/-- The observable per-slot data for the frame properties: the stored
value and the has-been-set flag. -/
def valSet (m : Meta) : PyVal × Bool :=
  (m.val, m.has_been_set)

theorem alookup_aset (l : List (String × Meta)) (n k : String) (m : Meta) :
    alookup (aset l n m) k = if n = k then some m else alookup l k := by
  induction l with
  | nil =>
    simp [aset, alookup]
  | cons p rest ih =>
    obtain ⟨k0, m0⟩ := p
    simp only [aset]
    by_cases h : k0 = n
    · subst h
      simp only [if_pos rfl, alookup]
      by_cases h2 : k0 = k <;> simp [h2]
    · simp only [if_neg h, alookup]
      by_cases h2 : k0 = k
      · subst h2
        have hnk : ¬ n = k0 := fun hh => h hh.symm
        simp [hnk]
      · simp [h2, ih]

theorem alookup_aset_self (l : List (String × Meta)) (n : String) (m : Meta) :
    alookup (aset l n m) n = some m := by
  simp [alookup_aset]

theorem valSet_after_flagclear (d : OptionsDictionary) (name : String)
    (meta : Meta) (h : alookup d.dict name = some meta) (k : String) :
    (alookup (aset d.dict name ({ meta with need_deprecation := false })) k).map valSet
      = (alookup d.dict k).map valSet := by
  rw [alookup_aset]
  by_cases hk : name = k
  · subst hk
    rw [if_pos rfl, h]
    rfl
  · rw [if_neg hk]

theorem warnStep_flag_true (d : OptionsDictionary) (name : String) (meta : Meta)
    (hnd : meta.need_deprecation = true) :
    d.warnStep name meta =
      ({ d with dict := aset d.dict name ({ meta with need_deprecation := false }) },
       [meta.deprecation.getD ""], { meta with need_deprecation := false }) := by
  simp [OptionsDictionary.warnStep, hnd]

theorem warnStep_flag_false (d : OptionsDictionary) (name : String) (meta : Meta)
    (hnd : meta.need_deprecation = false) :
    d.warnStep name meta = (d, [], meta) := by
  simp [OptionsDictionary.warnStep, hnd]

theorem warnStep_read_only (d : OptionsDictionary) (name : String) (meta : Meta) :
    (d.warnStep name meta).1.read_only = d.read_only := by
  cases hnd : meta.need_deprecation
  · rw [warnStep_flag_false d name meta hnd]
  · rw [warnStep_flag_true d name meta hnd]

theorem warnStep_raiseMsg (d : OptionsDictionary) (name : String) (meta : Meta)
    (msg : String) :
    (d.warnStep name meta).1.raiseMsg msg = d.raiseMsg msg := by
  cases hnd : meta.need_deprecation
  · rw [warnStep_flag_false d name meta hnd]
  · rw [warnStep_flag_true d name meta hnd]
    rfl

theorem assert_flagclear (d : OptionsDictionary) (name : String) (meta : Meta)
    (hl : alookup d.dict name = some meta) (v : PyVal) :
    OptionsDictionary._assert_valid
      { d with dict := aset d.dict name ({ meta with need_deprecation := false }) }
      name v = d._assert_valid name v := by
  simp only [OptionsDictionary._assert_valid, alookup_aset_self, hl]
  rfl

theorem warnStep_assert (d : OptionsDictionary) (name : String) (meta : Meta)
    (hl : alookup d.dict name = some meta) (v : PyVal) :
    OptionsDictionary._assert_valid (d.warnStep name meta).1 name v
      = d._assert_valid name v := by
  cases hnd : meta.need_deprecation
  · rw [warnStep_flag_false d name meta hnd]
  · rw [warnStep_flag_true d name meta hnd]
    exact assert_flagclear d name meta hl v

theorem warnStep_lookup (d : OptionsDictionary) (name : String) (meta : Meta)
    (hl : alookup d.dict name = some meta) :
    alookup (d.warnStep name meta).1.dict name = some (d.warnStep name meta).2.2 := by
  cases hnd : meta.need_deprecation
  · rw [warnStep_flag_false d name meta hnd]
    exact hl
  · rw [warnStep_flag_true d name meta hnd]
    exact alookup_aset_self _ _ _

theorem warnStep_meta_flag (d : OptionsDictionary) (name : String) (meta : Meta) :
    (d.warnStep name meta).2.2.need_deprecation = false := by
  cases hnd : meta.need_deprecation
  · rw [warnStep_flag_false d name meta hnd]
    exact hnd
  · rw [warnStep_flag_true d name meta hnd]

theorem warnStep_meta_valSet (d : OptionsDictionary) (name : String) (meta : Meta) :
    valSet (d.warnStep name meta).2.2 = valSet meta := by
  cases hnd : meta.need_deprecation
  · rw [warnStep_flag_false d name meta hnd]
  · rw [warnStep_flag_true d name meta hnd]
    rfl

theorem warnStep_warns (d : OptionsDictionary) (name : String) (meta : Meta) :
    (d.warnStep name meta).2.1.length
      = (if meta.need_deprecation = true then 1 else 0) := by
  cases hnd : meta.need_deprecation
  · rw [warnStep_flag_false d name meta hnd]
    simp [hnd]
  · rw [warnStep_flag_true d name meta hnd]
    simp [hnd]

theorem warnStep_frame (d : OptionsDictionary) (name : String) (meta : Meta)
    (hl : alookup d.dict name = some meta) (k : String) :
    (alookup (d.warnStep name meta).1.dict k).map valSet
      = (alookup d.dict k).map valSet := by
  cases hnd : meta.need_deprecation
  · rw [warnStep_flag_false d name meta hnd]
  · rw [warnStep_flag_true d name meta hnd]
    exact valSet_after_flagclear d name meta hl k

theorem setitem_spec (d : OptionsDictionary) (name : String) (v : PyVal)
    (meta : Meta) (hl : alookup d.dict name = some meta) :
    d.setitem name v =
      (if d.read_only = true then
        ((d.warnStep name meta).1, (d.warnStep name meta).2.1,
          .error (.keyError (d.raiseMsg ("Tried to set read-only option "
            ++ name ++ "."))))
      else
        match d._assert_valid name v with
        | some e => ((d.warnStep name meta).1, (d.warnStep name meta).2.1, .error e)
        | none =>
          ({ (d.warnStep name meta).1 with dict := aset (d.warnStep name meta).1.dict name ({ (d.warnStep name meta).2.2 with val := v, has_been_set := true }) },
            (d.warnStep name meta).2.1, .ok ())) := by
  simp only [OptionsDictionary.setitem, hl]
  rw [warnStep_read_only, warnStep_raiseMsg, warnStep_assert d name meta hl v]

theorem getitem_spec (d : OptionsDictionary) (name : String) (meta : Meta)
    (hl : alookup d.dict name = some meta) :
    d.getitem name =
      (if meta.has_been_set = true then
        ((d.warnStep name meta).1, (d.warnStep name meta).2.1, .ok meta.val)
      else
        ((d.warnStep name meta).1, (d.warnStep name meta).2.1,
          .error (.runtimeError (d.raiseMsg ("Option " ++ name ++
            " is required but has not been set."))))) := by
  simp only [OptionsDictionary.getitem, hl]
  rw [warnStep_raiseMsg]
  have hv : (d.warnStep name meta).2.2.val = meta.val := congrArg Prod.fst
    (warnStep_meta_valSet d name meta)
  have hb : (d.warnStep name meta).2.2.has_been_set = meta.has_been_set :=
    congrArg Prod.snd (warnStep_meta_valSet d name meta)
  rw [hv, hb]

theorem setitem_error_frame (d : OptionsDictionary) (name : String) (v : PyVal)
    (e : PyErr) (h : (d.setitem name v).2.2 = .error e) (k : String) :
    (alookup (d.setitem name v).1.dict k).map valSet
      = (alookup d.dict k).map valSet := by
  cases hl : alookup d.dict name with
  | none => simp [OptionsDictionary.setitem, hl]
  | some meta =>
    rw [setitem_spec d name v meta hl]
    by_cases hro : d.read_only = true
    · rw [if_pos hro]
      exact warnStep_frame d name meta hl k
    · rw [if_neg hro]
      cases hav : d._assert_valid name v with
      | some e2 =>
        exact warnStep_frame d name meta hl k
      | none =>
        rw [setitem_spec d name v meta hl, if_neg hro, hav] at h
        simp at h

theorem setitem_ok_val (d : OptionsDictionary) (name : String) (v : PyVal)
    (h : (d.setitem name v).2.2 = .ok ()) :
    (alookup (d.setitem name v).1.dict name).map valSet = some (v, true) := by
  cases hl : alookup d.dict name with
  | none => simp [OptionsDictionary.setitem, hl] at h
  | some meta =>
    rw [setitem_spec d name v meta hl] at h ⊢
    by_cases hro : d.read_only = true
    · rw [if_pos hro] at h
      simp at h
    · rw [if_neg hro] at h ⊢
      cases hav : d._assert_valid name v with
      | some e2 =>
        rw [hav] at h
        simp at h
      | none =>
        simp [alookup_aset_self, valSet]

theorem getitem_frame (d : OptionsDictionary) (name k : String) :
    (alookup (d.getitem name).1.dict k).map valSet
      = (alookup d.dict k).map valSet := by
  cases hl : alookup d.dict name with
  | none => simp [OptionsDictionary.getitem, hl]
  | some meta =>
    rw [getitem_spec d name meta hl]
    by_cases hbs : meta.has_been_set = true
    · rw [if_pos hbs]
      exact warnStep_frame d name meta hl k
    · rw [if_neg hbs]
      exact warnStep_frame d name meta hl k

theorem getitem_hbs_ok (d : OptionsDictionary) (name : String) (meta : Meta)
    (hl : alookup d.dict name = some meta) (hbs : meta.has_been_set = true) :
    (d.getitem name).2.2 = .ok meta.val := by
  rw [getitem_spec d name meta hl, if_pos hbs]

theorem runAccess_spec (d : OptionsDictionary) (name : String) (meta : Meta)
    (hl : alookup d.dict name = some meta) (a : Access) :
    ∃ meta2, alookup (d.runAccess name a).1.dict name = some meta2 ∧
      meta2.need_deprecation = false ∧
      (d.runAccess name a).2.length
        = (if meta.need_deprecation = true then 1 else 0) := by
  cases a with
  | read =>
    simp only [OptionsDictionary.runAccess]
    rw [getitem_spec d name meta hl]
    by_cases hbs : meta.has_been_set = true
    · rw [if_pos hbs]
      exact ⟨(d.warnStep name meta).2.2, warnStep_lookup d name meta hl,
        warnStep_meta_flag d name meta, warnStep_warns d name meta⟩
    · rw [if_neg hbs]
      exact ⟨(d.warnStep name meta).2.2, warnStep_lookup d name meta hl,
        warnStep_meta_flag d name meta, warnStep_warns d name meta⟩
  | write v =>
    simp only [OptionsDictionary.runAccess]
    rw [setitem_spec d name v meta hl]
    by_cases hro : d.read_only = true
    · rw [if_pos hro]
      exact ⟨(d.warnStep name meta).2.2, warnStep_lookup d name meta hl,
        warnStep_meta_flag d name meta, warnStep_warns d name meta⟩
    · rw [if_neg hro]
      cases hav : d._assert_valid name v with
      | some e2 =>
        exact ⟨(d.warnStep name meta).2.2, warnStep_lookup d name meta hl,
          warnStep_meta_flag d name meta, warnStep_warns d name meta⟩
      | none =>
        refine ⟨{ (d.warnStep name meta).2.2 with val := v, has_been_set := true },
          ?_, ?_, ?_⟩
        · simp [alookup_aset_self]
        · exact warnStep_meta_flag d name meta
        · exact warnStep_warns d name meta

theorem runAccesses_no_flag (d : OptionsDictionary) (name : String)
    (accs : List Access) (meta : Meta) (hl : alookup d.dict name = some meta)
    (hnd : meta.need_deprecation = false) :
    (d.runAccesses name accs).2 = 0 := by
  induction accs generalizing d meta with
  | nil => simp [OptionsDictionary.runAccesses]
  | cons a rest ih =>
    obtain ⟨meta2, hl2, hnd2, hw⟩ := runAccess_spec d name meta hl a
    simp only [OptionsDictionary.runAccesses]
    rw [hw, hnd, ih (d.runAccess name a).1 meta2 hl2 hnd2]
    simp

theorem pyIn_pair (v a b : PyVal) :
    pyIn v [a, b] = (pyEq v a || pyEq v b) := by
  simp [pyIn]

/-- A custom validator that rejects every value. -/
def cvReject : CheckValid :=
  fun name _ => some (.valueError ("Option " ++ name ++ " rejected"))

/-- A fresh, writable dictionary with no parent name. -/
def d0 : OptionsDictionary :=
  OptionsDictionary.init none false

/-- One slot with `allow_none=True` and a rejecting custom validator. -/
def dAllowNone : OptionsDictionary :=
  (d0.declare "opt" .undef none none "" none none (some cvReject) true true none).1

/-- Declare a slot constrained by `types=bool` only (no default, no other
constraints). -/
def declareBoolOnly (d : OptionsDictionary) (name : String) : OptionsDictionary :=
  (d.declare name .undef none (some (.single .boolT)) "" none none none false true none).1

/-- One slot with `types=bool`. -/
def dBool : OptionsDictionary :=
  declareBoolOnly d0 "flag"

/-- C1 counterexample: with `allow_none` true and a custom validator
configured, writing `None` is NOT accepted silently: the custom validator
is still invoked (it sits outside the `value is None and allow_none`
guard in `_assert_valid`) and its error is raised. -/
theorem c1_counterexample :
    (dAllowNone.setitem "opt" PyVal.noneV).2.2
      = .error (.valueError "Option opt rejected") := by
  rfl

/-- C1 (amended): for a declared slot with `allow_none` true, validating
`None` skips the enumerated-values, type, and bounds checks, but the
custom validator is still invoked on `None` and its verdict is the whole
result of validation (in particular, with no custom validator configured,
`None` is accepted with no checks at all). -/
theorem c1_none_skips_checks_but_not_validator (d : OptionsDictionary)
    (name : String) (meta : Meta) (hl : alookup d.dict name = some meta)
    (ha : meta.allow_none = true) :
    d._assert_valid name .noneV
      = Option.join (meta.check_valid.map (fun f => f name .noneV)) := by
  simp only [OptionsDictionary._assert_valid, hl, ha]
  cases hcv : meta.check_valid <;> simp [hcv]

/-- C1 witness: the amended theorem evaluated on the concrete slot of
`dAllowNone`. -/
theorem c1_witness :
    dAllowNone._assert_valid "opt" PyVal.noneV
      = Option.join ((some cvReject).map (fun f => f "opt" PyVal.noneV)) :=
  c1_none_skips_checks_but_not_validator dAllowNone "opt"
    { val := .undef, values := none, types := none, desc := "", upper := none,
      lower := none, check_valid := some cvReject, has_been_set := false,
      allow_none := true, recordable := true, deprecation := none,
      need_deprecation := false } rfl rfl

/-- C2 counterexample: for a slot declared with `allowed_types` exactly
`bool`, the integer `1` is accepted (Python membership uses `==`, and
`1 == True`), and is stored as-is — the claim that every non-boolean
value is rejected is false. -/
theorem c2_counterexample :
    (dBool.setitem "flag" (PyVal.intV 1)).2.2 = .ok () ∧
    (dBool.setitem "flag" (PyVal.intV 1)).1.get "flag" PyVal.undef
      = PyVal.intV 1 := by
  exact ⟨rfl, rfl⟩

/-- C2 (amended): for a slot declared with `allowed_types` exactly the
boolean type, the registry behaves as if `allowed_values` were
`(True, False)` under the language's equality: Write accepts exactly the
values that compare equal to `True` or to `False` (which includes the
numbers `1` and `0`), and rejects every other value with an invalid-value
error. -/
theorem c2_bool_types_accept_iff_py_equal (d : OptionsDictionary)
    (name : String) (v : PyVal) (hro : d.read_only = false) :
    (((declareBoolOnly d name).setitem name v).2.2 = .ok ()
      ↔ (pyEq v (.boolV true) || pyEq v (.boolV false)) = true) ∧
    ((pyEq v (.boolV true) || pyEq v (.boolV false)) = false →
      ∃ m, ((declareBoolOnly d name).setitem name v).2.2
        = .error (.valueError m)) := by
  have hl : alookup (declareBoolOnly d name).dict name = some
      { val := .undef, values := some [.boolV true, .boolV false],
        types := some (.single .boolT), desc := "", upper := none,
        lower := none, check_valid := none, has_been_set := false,
        allow_none := false, recordable := true, deprecation := none,
        need_deprecation := false } := by
    simp [declareBoolOnly, OptionsDictionary.declare, alookup_aset_self]
  have hro2 : (declareBoolOnly d name).read_only = false := by
    simp [declareBoolOnly, OptionsDictionary.declare]
    exact hro
  have hassert : (declareBoolOnly d name)._assert_valid name v
      = (if pyIn v [.boolV true, .boolV false] = true then none
         else some (.valueError ((declareBoolOnly d name).raiseMsg
           ("Value (" ++ strPy v ++ ") of option " ++ name ++
             " is not one of the allowed values.")))) := by
    simp only [OptionsDictionary._assert_valid, hl]
    by_cases hn : v = PyVal.noneV
    · subst hn
      simp [pyIn, pyEq, toNum?]
    · simp [hn]
      by_cases hp : pyIn v [.boolV true, .boolV false] = true <;> simp [hp]
  rw [setitem_spec _ name v _ hl, if_neg (by simp [hro2]), hassert,
    warnStep_flag_false _ name _ rfl]
  by_cases hp : pyIn v [.boolV true, .boolV false] = true
  · rw [if_pos hp]
    rw [pyIn_pair] at hp
    simp [hp]
  · rw [if_neg hp]
    rw [pyIn_pair] at hp
    simp only [Bool.not_eq_true] at hp
    simp [hp]

/-- C2 witness: the amended theorem evaluated at the string value `"x"`. -/
theorem c2_witness :
    (((declareBoolOnly d0 "flag").setitem "flag" (PyVal.strV "x")).2.2 = .ok ()
      ↔ (pyEq (PyVal.strV "x") (.boolV true)
          || pyEq (PyVal.strV "x") (.boolV false)) = true) ∧
    ((pyEq (PyVal.strV "x") (.boolV true)
        || pyEq (PyVal.strV "x") (.boolV false)) = false →
      ∃ m, ((declareBoolOnly d0 "flag").setitem "flag" (PyVal.strV "x")).2.2
        = .error (.valueError m)) :=
  c2_bool_types_accept_iff_py_equal d0 "flag" (PyVal.strV "x") rfl

theorem assert_bounds (d : OptionsDictionary) (name : String) (meta : Meta)
    (n lo hi : Int) (hl : alookup d.dict name = some meta)
    (hhi : meta.upper = some (.intV hi)) (hlo : meta.lower = some (.intV lo))
    (hcv : meta.check_valid = none) (hvt : vtOk meta (.intV n) = true) :
    ((lo ≤ n ∧ n ≤ hi) → d._assert_valid name (.intV n) = none) ∧
    ((n < lo ∨ hi < n) →
      ∃ m, d._assert_valid name (.intV n) = some (.valueError m)) := by
  have hvt2 : (match meta.values with
      | some vs =>
        if pyIn (PyVal.intV n) vs = true then (none : Option PyErr)
        else some (.valueError (d.raiseMsg ("Value (" ++ strPy (.intV n) ++
          ") of option " ++ name ++ " is not one of the allowed values.")))
      | none =>
        match meta.types with
        | some ts =>
          if ts.check (PyVal.intV n) = true then none
          else some (.typeError (d.raiseMsg ("Value (" ++ strPy (.intV n) ++
            ") of option " ++ name ++ " does not have an expected type.")))
        | none => none) = none := by
    cases hv : meta.values with
    | some vs =>
      have hp : pyIn (PyVal.intV n) vs = true := by
        simpa [vtOk, hv] using hvt
      simp [hp]
    | none =>
      cases ht : meta.types with
      | some ts =>
        have hp : ts.check (PyVal.intV n) = true := by
          simpa [vtOk, hv, ht] using hvt
        simp [hp]
      | none => simp
  constructor
  · rintro ⟨h1, h2⟩
    simp only [OptionsDictionary._assert_valid, hl, hhi, hlo, hcv, hvt2]
    simp [pyGt?, pyLt?, toNum?, Int.not_lt.mpr h1, Int.not_lt.mpr h2]
  · intro hout
    simp only [OptionsDictionary._assert_valid, hl, hhi, hlo, hcv, hvt2]
    by_cases h1 : hi < n
    · simp [pyGt?, pyLt?, toNum?, h1]
    · have h2 : n < lo := by
        rcases hout with h | h
        · exact h
        · exact absurd h h1
      simp [pyGt?, pyLt?, toNum?, h1, h2]

/-- One slot with `lower=0`, `upper=100`, default `10`, and no other
constraints. -/
def dBounds : OptionsDictionary :=
  (d0.declare "iters" (PyVal.intV 10) none none "" (some (PyVal.intV 100))
    (some (PyVal.intV 0)) none false true none).1

/-- C3: for a slot with both `lower` and `upper` declared (and no custom
validator), writing an integer that passes whatever enumerated-values or
type constraint is configured succeeds exactly when the value lies in the
closed interval `[lower, upper]`, and a value strictly outside the
interval is rejected with an invalid-value error; the bounds run whether
or not `allowed_values`/`allowed_types` are configured (the hypothesis
only asks that the configured check passes). -/
theorem c3_bounds_inclusive_and_independent (d : OptionsDictionary)
    (name : String) (meta : Meta) (n lo hi : Int)
    (hl : alookup d.dict name = some meta) (hro : d.read_only = false)
    (hhi : meta.upper = some (.intV hi)) (hlo : meta.lower = some (.intV lo))
    (hcv : meta.check_valid = none) (hvt : vtOk meta (.intV n) = true) :
    (((d.setitem name (.intV n)).2.2 = .ok ()) ↔ (lo ≤ n ∧ n ≤ hi)) ∧
    ((n < lo ∨ hi < n) →
      ∃ m, (d.setitem name (.intV n)).2.2 = .error (.valueError m)) := by
  obtain ⟨hok, herr⟩ := assert_bounds d name meta n lo hi hl hhi hlo hcv hvt
  rw [setitem_spec d name (.intV n) meta hl, if_neg (by simp [hro])]
  constructor
  · constructor
    · intro h
      by_cases hin : lo ≤ n ∧ n ≤ hi
      · exact hin
      · have hout : n < lo ∨ hi < n := by
          rcases not_and_or.mp hin with h1 | h1
          · exact Or.inl (Int.not_le.mp h1)
          · exact Or.inr (Int.not_le.mp h1)
        obtain ⟨m, hm⟩ := herr hout
        rw [hm] at h
        simp at h
    · intro hin
      rw [hok hin]
  · intro hout
    obtain ⟨m, hm⟩ := herr hout
    rw [hm]
    exact ⟨m, rfl⟩

/-- C3 witness: the theorem evaluated on the concrete `dBounds` slot at
the out-of-range value `150`. -/
theorem c3_witness :
    (((dBounds.setitem "iters" (.intV 150)).2.2 = .ok ())
      ↔ ((0 : Int) ≤ 150 ∧ (150 : Int) ≤ 100)) ∧
    (((150 : Int) < 0 ∨ (100 : Int) < 150) →
      ∃ m, (dBounds.setitem "iters" (.intV 150)).2.2
        = .error (.valueError m)) :=
  c3_bounds_inclusive_and_independent dBounds "iters"
    { val := .intV 10, values := none, types := none, desc := "",
      upper := some (.intV 100), lower := some (.intV 0), check_valid := none,
      has_been_set := true, allow_none := false, recordable := true,
      deprecation := none, need_deprecation := false }
    150 0 100 rfl rfl rfl rfl rfl rfl

/-- One slot declared with a deprecation message (and default `1`). -/
def dDep : OptionsDictionary :=
  (d0.declare "old" (PyVal.intV 1) none none "" none none none false true
    (some "use the new option")).1

/-- C4: for a slot whose one-shot deprecation flag is pending, any
non-empty sequence of reads and writes of that slot emits exactly one
deprecation notice in total, and it is the first access that emits it. -/
theorem c4_deprecation_notified_exactly_once (d : OptionsDictionary)
    (name : String) (meta : Meta) (a : Access) (rest : List Access)
    (hl : alookup d.dict name = some meta)
    (hnd : meta.need_deprecation = true) :
    (d.runAccess name a).2.length = 1 ∧
    (d.runAccesses name (a :: rest)).2 = 1 := by
  obtain ⟨meta2, hl2, hnd2, hw⟩ := runAccess_spec d name meta hl a
  constructor
  · rw [hw, hnd]
    rfl
  · simp only [OptionsDictionary.runAccesses]
    rw [hw, hnd,
      runAccesses_no_flag (d.runAccess name a).1 name rest meta2 hl2 hnd2]
    rfl

/-- C4 witness: the theorem on the concrete `dDep` slot for the sequence
read, read, write, read. -/
theorem c4_witness :
    (dDep.runAccess "old" .read).2.length = 1 ∧
    (dDep.runAccesses "old"
      [.read, .read, .write (PyVal.intV 2), .read]).2 = 1 :=
  c4_deprecation_notified_exactly_once dDep "old"
    { val := .intV 1, values := none, types := none, desc := "",
      upper := none, lower := none, check_valid := none, has_been_set := true,
      allow_none := false, recordable := true,
      deprecation := some "use the new option", need_deprecation := true }
    .read [.read, .write (PyVal.intV 2), .read] rfl rfl

/-- A read-only dictionary with one never-set slot (no default). -/
def dRO : OptionsDictionary :=
  ((OptionsDictionary.init none true).declare "opt" .undef none none ""
    none none none false true none).1

/-- C5: on a read-only dictionary, every write to a declared slot fails
with a key-error-kind read-only error, and the stored value and
has-been-set flag of every slot (set or not) are left unchanged; no
hypothesis constrains the slot's validation rules. -/
theorem c5_read_only_write_rejected_state_unchanged (d : OptionsDictionary)
    (name : String) (v : PyVal) (meta : Meta)
    (hl : alookup d.dict name = some meta) (hro : d.read_only = true) :
    (∃ m, (d.setitem name v).2.2 = .error (.keyError m)) ∧
    (∀ k, (alookup (d.setitem name v).1.dict k).map valSet
        = (alookup d.dict k).map valSet) := by
  have h : (d.setitem name v).2.2 = .error (.keyError (d.raiseMsg
      ("Tried to set read-only option " ++ name ++ "."))) := by
    rw [setitem_spec d name v meta hl, if_pos hro]
  exact ⟨⟨_, h⟩, fun k => setitem_error_frame d name v _ h k⟩

/-- C5 witness: the theorem on the concrete read-only dictionary `dRO`. -/
theorem c5_witness :
    (∃ m, (dRO.setitem "opt" (PyVal.intV 3)).2.2 = .error (.keyError m)) ∧
    (∀ k, (alookup (dRO.setitem "opt" (PyVal.intV 3)).1.dict k).map valSet
        = (alookup dRO.dict k).map valSet) :=
  c5_read_only_write_rejected_state_unchanged dRO "opt" (PyVal.intV 3)
    { val := .undef, values := none, types := none, desc := "",
      upper := none, lower := none, check_valid := none, has_been_set := false,
      allow_none := false, recordable := true, deprecation := none,
      need_deprecation := false } rfl rfl

theorem update_append_ok (d : OptionsDictionary) (pre rest : List (String × PyVal))
    (h : (d.update pre).2.2 = .ok ()) :
    d.update (pre ++ rest)
      = (((d.update pre).1.update rest).1,
         (d.update pre).2.1 ++ ((d.update pre).1.update rest).2.1,
         ((d.update pre).1.update rest).2.2) := by
  induction pre generalizing d with
  | nil => simp [OptionsDictionary.update]
  | cons p pre ih =>
    obtain ⟨n0, v0⟩ := p
    simp only [List.cons_append, OptionsDictionary.update] at h ⊢
    cases hs : (d.setitem n0 v0).2.2 with
    | error e0 =>
      rw [hs] at h
      simp at h
    | ok u =>
      cases u
      rw [hs] at h
      simp only [] at h
      have h2 : ((d.setitem n0 v0).1.update pre).2.2 = .ok () := h
      simp only [hs]
      have ih2 := ih (d.setitem n0 v0).1 h2
      simp only [List.append_eq] at ih2 ⊢
      rw [ih2]
      simp [List.append_assoc]

/-- C6: BulkUpdate applies Write per entry in the mapping's order: when a
prefix of the entries succeeds and the next entry's write fails, the
error propagates, the resulting state is exactly the state after that
failing write (the remaining entries are not applied), and the failing
write itself leaves the stored value and has-been-set flag of every slot
— in particular the failing one — unchanged from the state after the
prefix. -/
theorem c6_update_applies_in_order_until_failure (d : OptionsDictionary)
    (pre rest : List (String × PyVal)) (name : String) (v : PyVal) (e : PyErr)
    (h1 : (d.update pre).2.2 = .ok ())
    (h2 : ((d.update pre).1.setitem name v).2.2 = .error e) :
    (d.update (pre ++ (name, v) :: rest)).1
        = ((d.update pre).1.setitem name v).1 ∧
    (d.update (pre ++ (name, v) :: rest)).2.2 = .error e ∧
    (∀ k, (alookup ((d.update pre).1.setitem name v).1.dict k).map valSet
        = (alookup (d.update pre).1.dict k).map valSet) := by
  rw [update_append_ok d pre ((name, v) :: rest) h1]
  refine ⟨?_, ?_, fun k => setitem_error_frame _ name v e h2 k⟩
  · simp only [OptionsDictionary.update, h2]
  · simp only [OptionsDictionary.update, h2]

/-- Two slots: `a` unconstrained with default `0`, and `b` with default
`0`, `lower=0`, `upper=10`. -/
def dTwo : OptionsDictionary :=
  ((d0.declare "a" (PyVal.intV 0) none none "" none none none false true
    none).1.declare "b" (PyVal.intV 0) none none "" (some (PyVal.intV 10))
    (some (PyVal.intV 0)) none false true none).1

/-- C6 witness: the theorem on `dTwo` where the entry for `a` succeeds and
the entry `(b, 99)` fails the upper-bound check. -/
theorem c6_witness :
    (dTwo.update ([("a", PyVal.intV 1)] ++ ("b", PyVal.intV 99)
        :: [("a", PyVal.intV 5)])).1
      = ((dTwo.update [("a", PyVal.intV 1)]).1.setitem "b" (PyVal.intV 99)).1 ∧
    (dTwo.update ([("a", PyVal.intV 1)] ++ ("b", PyVal.intV 99)
        :: [("a", PyVal.intV 5)])).2.2
      = .error (.valueError
          "Value (99) of option b exceeds maximum allowed value of 10.") ∧
    (∀ k, (alookup ((dTwo.update [("a", PyVal.intV 1)]).1.setitem "b"
          (PyVal.intV 99)).1.dict k).map valSet
        = (alookup (dTwo.update [("a", PyVal.intV 1)]).1.dict k).map valSet) :=
  c6_update_applies_in_order_until_failure dTwo [("a", PyVal.intV 1)]
    [("a", PyVal.intV 5)] "b" (PyVal.intV 99)
    (.valueError "Value (99) of option b exceeds maximum allowed value of 10.")
    rfl rfl

theorem readIter_valSet (d : OptionsDictionary) (name : String) (k : Nat) :
    (alookup (d.readIter name k).dict name).map valSet
      = (alookup d.dict name).map valSet := by
  induction k generalizing d with
  | zero => rfl
  | succ k ih =>
    simp only [OptionsDictionary.readIter]
    rw [ih, getitem_frame]

/-- C7: reading a declared slot whose has-been-set flag is false (declared
without a default and never successfully written) raises the
required-but-not-set RuntimeError; and after one successful write of `v`,
every subsequent read — after any number of intervening reads and no
intervening write — returns exactly `v`. -/
theorem c7_required_unset_then_write_read (d : OptionsDictionary)
    (name : String) (v : PyVal) (meta : Meta)
    (hl : alookup d.dict name = some meta) :
    (meta.has_been_set = false →
      ∃ m, (d.getitem name).2.2 = .error (.runtimeError m)) ∧
    ((d.setitem name v).2.2 = .ok () →
      ∀ k, (((d.setitem name v).1.readIter name k).getitem name).2.2
        = .ok v) := by
  constructor
  · intro hbs
    rw [getitem_spec d name meta hl, if_neg (by simp [hbs])]
    exact ⟨_, rfl⟩
  · intro h k
    have hv := setitem_ok_val d name v h
    have hit : (alookup ((d.setitem name v).1.readIter name k).dict name).map valSet
        = some (v, true) := by
      rw [readIter_valSet, hv]
    cases hl2 : alookup ((d.setitem name v).1.readIter name k).dict name with
    | none =>
      rw [hl2] at hit
      simp at hit
    | some m2 =>
      rw [hl2] at hit
      simp [valSet] at hit
      obtain ⟨hval, hhbs⟩ := hit
      rw [getitem_hbs_ok _ name m2 hl2 hhbs, hval]

/-- C7 witness: the theorem on the never-set slot of `dBool`, written with
`True` and then read back after one extra read. -/
theorem c7_witness :
    ((false : Bool) = false →
      ∃ m, (dBool.getitem "flag").2.2 = .error (.runtimeError m)) ∧
    ((dBool.setitem "flag" (PyVal.boolV true)).2.2 = .ok () →
      ∀ k, (((dBool.setitem "flag" (PyVal.boolV true)).1.readIter "flag"
          k).getitem "flag").2.2 = .ok (PyVal.boolV true)) :=
  c7_required_unset_then_write_read dBool "flag" (PyVal.boolV true)
    { val := .undef, values := some [.boolV true, .boolV false],
      types := some (.single .boolT), desc := "", upper := none,
      lower := none, check_valid := none, has_been_set := false,
      allow_none := false, recordable := true, deprecation := none,
      need_deprecation := false } rfl

/-- C8: `get` returns the stored `val` field whenever the name is declared
— including the `undef` sentinel of a slot declared without a default and
never written, in which case the caller-supplied default is NOT returned —
and returns the supplied default only for a name absent from the
dictionary; it is a pure function (no state change, no exception, no
deprecation consumption). -/
theorem c8_get_returns_stored_not_default (d : OptionsDictionary)
    (name absent : String) (meta : Meta) (defv : PyVal)
    (hl : alookup d.dict name = some meta)
    (habs : alookup d.dict absent = none) :
    d.get name defv = meta.val ∧
    (meta.val = PyVal.undef → d.get name defv = PyVal.undef) ∧
    d.get absent defv = defv := by
  refine ⟨?_, ?_, ?_⟩
  · simp [OptionsDictionary.get, hl]
  · intro h
    simp [OptionsDictionary.get, hl, h]
  · simp [OptionsDictionary.get, habs]

/-- C8 witness: on `dBool`, `get` of the declared-but-unset slot returns
the sentinel rather than the supplied default `7`, and `get` of an absent
name returns `7`. -/
theorem c8_witness :
    dBool.get "flag" (PyVal.intV 7) = PyVal.undef ∧
    (PyVal.undef = PyVal.undef →
      dBool.get "flag" (PyVal.intV 7) = PyVal.undef) ∧
    dBool.get "missing" (PyVal.intV 7) = PyVal.intV 7 :=
  c8_get_returns_stored_not_default dBool "flag" "missing"
    { val := .undef, values := some [.boolV true, .boolV false],
      types := some (.single .boolT), desc := "", upper := none,
      lower := none, check_valid := none, has_been_set := false,
      allow_none := false, recordable := true, deprecation := none,
      need_deprecation := false } (PyVal.intV 7) rfl rfl

/-- C9: declaration is not atomic on a validation error: when `declare` is
given a default (not the sentinel) and returns an error (with `values` and
`types` not both supplied, so the error comes from validating the
default), the slot has nevertheless been inserted, stores the invalid
default with has-been-set true, and a subsequent read returns the invalid
default without error. -/
theorem c9_declare_inserts_before_validating (d : OptionsDictionary)
    (name : String) (default : PyVal) (values : Option (List PyVal))
    (types : Option TypesArg) (desc : String) (upper lower : Option PyVal)
    (cv : Option CheckValid) (an rec : Bool) (dep : Option String)
    (hnb : (types.isSome && values.isSome) = false)
    (herr : (d.declare name default values types desc upper lower cv an rec
      dep).2.isSome = true) :
    ∃ meta, alookup (d.declare name default values types desc upper lower cv
        an rec dep).1.dict name = some meta ∧
      meta.val = default ∧ meta.has_been_set = true ∧
      ((d.declare name default values types desc upper lower cv an rec
        dep).1.getitem name).2.2 = .ok default := by
  by_cases hdp : (default != PyVal.undef) = true
  · have hl : alookup (d.declare name default values types desc upper lower
        cv an rec dep).1.dict name = some
        { val := default,
          values := if types = some (.single .boolT) then
              some [PyVal.boolV true, PyVal.boolV false]
            else values,
          types := types, desc := desc, upper := upper, lower := lower,
          check_valid := cv, has_been_set := default != PyVal.undef,
          allow_none := if (default != PyVal.undef) && (default == PyVal.noneV)
            then true else an,
          recordable := rec, deprecation := dep,
          need_deprecation := dep.isSome } := by
      simp only [OptionsDictionary.declare, hnb, Bool.false_eq_true, if_false]
      by_cases hb : rec <;> simp [hb, hdp, alookup_aset_self]
    refine ⟨_, hl, rfl, hdp, ?_⟩
    rw [getitem_spec _ name _ hl, if_pos hdp]
  · exfalso
    simp only [OptionsDictionary.declare, hnb, Bool.false_eq_true,
      if_false] at herr
    by_cases hb : rec <;> simp [hb, hdp] at herr

/-- One slot whose default `5` violates its own lower bound `10`. -/
def dBadDefault : OptionsDictionary × Option PyErr :=
  d0.declare "x" (PyVal.intV 5) none none "" none (some (PyVal.intV 10))
    none false true none

/-- C9 witness: declaring `x` with default `5` and `lower=10` errors, yet
the slot exists, holds `5`, and reads back as `5`. -/
theorem c9_witness :
    ∃ meta, alookup (d0.declare "x" (PyVal.intV 5) none none "" none
        (some (PyVal.intV 10)) none false true none).1.dict "x" = some meta ∧
      meta.val = PyVal.intV 5 ∧ meta.has_been_set = true ∧
      ((d0.declare "x" (PyVal.intV 5) none none "" none
        (some (PyVal.intV 10)) none false true none).1.getitem "x").2.2
        = .ok (PyVal.intV 5) :=
  c9_declare_inserts_before_validating d0 "x" (PyVal.intV 5) none none ""
    none (some (PyVal.intV 10)) none false true none rfl rfl

/-- A read-only dictionary with one deprecated slot. -/
def dRODep : OptionsDictionary :=
  ((OptionsDictionary.init none true).declare "old" (PyVal.intV 1) none none
    "" none none none false true (some "use the new option")).1

/-- C10: a write to a declared slot of a read-only dictionary with a
pending deprecation notice still emits exactly that notice and clears the
one-shot flag before the key-error-kind read-only error is raised; the
flag is the only slot state that changes — the slot's other fields, every
other slot, and the dictionary-level fields are untouched. -/
theorem c10_readonly_write_emits_notice_then_raises (d : OptionsDictionary)
    (name : String) (v : PyVal) (meta : Meta)
    (hl : alookup d.dict name = some meta) (hro : d.read_only = true)
    (hnd : meta.need_deprecation = true) :
    (∃ m, (d.setitem name v).2.2 = .error (.keyError m)) ∧
    (d.setitem name v).2.1 = [meta.deprecation.getD ""] ∧
    alookup (d.setitem name v).1.dict name
      = some ({ meta with need_deprecation := false }) ∧
    (∀ k, k ≠ name →
      alookup (d.setitem name v).1.dict k = alookup d.dict k) ∧
    (d.setitem name v).1.read_only = d.read_only ∧
    (d.setitem name v).1.parent_name = d.parent_name ∧
    (d.setitem name v).1.all_recordable = d.all_recordable := by
  rw [setitem_spec d name v meta hl, if_pos hro,
    warnStep_flag_true d name meta hnd]
  refine ⟨⟨_, rfl⟩, rfl, ?_, ?_, rfl, rfl, rfl⟩
  · exact alookup_aset_self _ _ _
  · intro k hk
    exact (alookup_aset d.dict name k _).trans
      (if_neg (fun hh => hk hh.symm))

/-- C10 witness: the theorem on the read-only, deprecated slot of
`dRODep`. -/
theorem c10_witness :
    (∃ m, (dRODep.setitem "old" (PyVal.intV 2)).2.2
      = .error (.keyError m)) ∧
    (dRODep.setitem "old" (PyVal.intV 2)).2.1 = ["use the new option"] ∧
    alookup (dRODep.setitem "old" (PyVal.intV 2)).1.dict "old"
      = some { val := .intV 1, values := none, types := none, desc := "", upper := none, lower := none, check_valid := none, has_been_set := true, allow_none := false, recordable := true, deprecation := some "use the new option", need_deprecation := false } ∧
    (∀ k, k ≠ "old" →
      alookup (dRODep.setitem "old" (PyVal.intV 2)).1.dict k
        = alookup dRODep.dict k) ∧
    (dRODep.setitem "old" (PyVal.intV 2)).1.read_only = dRODep.read_only ∧
    (dRODep.setitem "old" (PyVal.intV 2)).1.parent_name
      = dRODep.parent_name ∧
    (dRODep.setitem "old" (PyVal.intV 2)).1.all_recordable
      = dRODep.all_recordable :=
  c10_readonly_write_emits_notice_then_raises dRODep "old" (PyVal.intV 2)
    { val := .intV 1, values := none, types := none, desc := "",
      upper := none, lower := none, check_valid := none,
      has_been_set := true, allow_none := false, recordable := true,
      deprecation := some "use the new option", need_deprecation := true }
    rfl rfl rfl

end OptionsDict
